import Mathlib

/-!
# Verification of the Kore collection/webhook reconciliation core

Shallow embedding of the status-reconciliation and idempotency subsystem of
the Kore-automate repository:

* `core_apps/collections/idempotency.py` (`IdempotentCollectionUpdate`,
  duplicated verbatim in `core_apps/webhooks/idempotency.py`),
* `core_apps/integrations/paywithaccount/normalization.py`
  (`normalize_provider_status`, `DEFAULT_STATUS_MAP`),
* `core_apps/webhooks/utils.py` (tolerant field extractors),
* `core_apps/webhooks/services.py` (`PayloadParser`, `WebhookService`),
* `core_apps/collections/services.py` (`CollectionsService` update paths).

Python JSON-like values are embedded as `PyVal`.  Operations that can raise
a Python exception (attribute access on a non-dict, `str.lower` on a
non-string, a missing collection row) are embedded in `Except PyErr`;
operations the source guards with `isinstance` checks are total.
-/

/-- Embedding of the Python JSON-like values that flow through webhook
payloads: `None`, booleans, integers, strings, dicts and lists.
(Fractional numbers are abstracted to integers; nothing proved here
depends on fractional values.) -/
inductive PyVal : Type where
  | none : PyVal
  | bool : Bool → PyVal
  | int : Int → PyVal
  | str : String → PyVal
  | dict : List (String × PyVal) → PyVal
  | list : List PyVal → PyVal
deriving Repr

/-- Python truthiness: `None`, `False`, `0`, `""`, `{}` and `[]` are falsy. -/
def truthy : PyVal → Bool
  | .none => false
  | .bool b => b
  | .int i => i != 0
  | .str s => s != ""
  | .dict kvs => !kvs.isEmpty
  | .list vs => !vs.isEmpty

/-- `v is None` in Python. -/
def PyVal.isNone : PyVal → Bool
  | .none => true
  | _ => false

/-- `isinstance(v, dict)` in Python. -/
def PyVal.isDict : PyVal → Bool
  | .dict _ => true
  | _ => false

/-- `isinstance(v, str)` in Python. -/
def PyVal.isStr : PyVal → Bool
  | .str _ => true
  | _ => false

/-- A single quote character, used by the Python `repr` of strings. -/
def squo : String := String.singleton (Char.ofNat 39)

mutual
/-- Python `repr(v)` (without escape handling, which no payload here needs). -/
def pyRepr : PyVal → String
  | .none => "None"
  | .bool true => "True"
  | .bool false => "False"
  | .int i => toString i
  | .str s => squo ++ s ++ squo
  | .dict kvs => "\x7b" ++ pyReprKVs kvs ++ "\x7d"
  | .list vs => "[" ++ pyReprList vs ++ "]"

/-- `repr` of the comma-separated entries of a dict. -/
def pyReprKVs : List (String × PyVal) → String
  | [] => ""
  | [(k, v)] => squo ++ k ++ squo ++ ": " ++ pyRepr v
  | (k, v) :: rest => squo ++ k ++ squo ++ ": " ++ pyRepr v ++ ", " ++ pyReprKVs rest

/-- `repr` of the comma-separated elements of a list. -/
def pyReprList : List PyVal → String
  | [] => ""
  | [v] => pyRepr v
  | v :: rest => pyRepr v ++ ", " ++ pyReprList rest
end

/-- Python `str(v)`: the string itself for strings, `repr` otherwise. -/
def pyStrFn : PyVal → String
  | .str s => s
  | v => pyRepr v

/-- Lookup in a Python dict (embedded as an association list). -/
def dictLookup : List (String × PyVal) → String → Option PyVal
  | [], _ => Option.none
  | (k, v) :: rest, key => if k == key then some v else dictLookup rest key

/-- Exceptions that the embedded code can raise. -/
inductive PyErr : Type where
  | attributeError : PyErr
  | collectionError (msg : String) : PyErr
  | webhookError (msg : String) : PyErr
deriving Repr, DecidableEq

/-- Python `v.get(key, default)`: raises `AttributeError` unless `v` is a
dict. -/
def pyGet (v : PyVal) (key : String) (default : PyVal) : Except PyErr PyVal :=
  match v with
  | .dict kvs => .ok ((dictLookup kvs key).getD default)
  | _ => .error .attributeError

/-- Python `a or b` over embedded values: `b` is only reached when `a` is
falsy, and an error raised while computing `a` propagates.  (Errors are
values of `Except`, so strict evaluation of the second argument coincides
with Python's short-circuit semantics.) -/
def pyOr (a b : Except PyErr PyVal) : Except PyErr PyVal := do
  let va ← a
  if truthy va then pure va else b

/-! ## `IdempotentCollectionUpdate` (collections/idempotency.py 9-109,
identically repeated in webhooks/idempotency.py 322-418) -/

/-- `IdempotentCollectionUpdate.STATUS_HIERARCHY` with the `.get(s, 0)`
default applied: INITIATED 1, PENDING 2, PROCESSING 3, SUCCESS 4, FAILED 4,
anything else 0. -/
def STATUS_HIERARCHY (s : String) : Nat :=
  if s = "INITIATED" then 1
  else if s = "PENDING" then 2
  else if s = "PROCESSING" then 3
  else if s = "SUCCESS" then 4
  else if s = "FAILED" then 4
  else 0

/-- `s in IdempotentCollectionUpdate.TERMINAL_STATUSES`. -/
def TERMINAL_STATUSES (s : String) : Bool :=
  s == "SUCCESS" || s == "FAILED"

/-- `IdempotentCollectionUpdate.should_update(current, new, allow_override)`. -/
def should_update (current_status new_status : String)
    (allow_override : Bool) : Bool :=
  if current_status == new_status then
    true
  else if allow_override then
    true
  else if TERMINAL_STATUSES current_status then
    false
  else if STATUS_HIERARCHY new_status < STATUS_HIERARCHY current_status then
    false
  else
    true

/-- `IdempotentCollectionUpdate.get_update_fields`: `some new_status` stands
for the `{'status': new_status}` dict, `none` for the no-update sentinel. -/
def get_update_fields (current_status new_status : String)
    (allow_override : Bool) : Option String :=
  if should_update current_status new_status allow_override then
    some new_status
  else
    Option.none

/-- The rank function exactly as claim C1 words it (it coincides with
`STATUS_HIERARCHY`; stated separately so the claim is checked against its
own wording, not against the embedding of the code). -/
def claimRank (s : String) : Nat :=
  if s = "INITIATED" then 1
  else if s = "PENDING" then 2
  else if s = "PROCESSING" then 3
  else if s = "SUCCESS" then 4
  else if s = "FAILED" then 4
  else 0

/-- Characterisation of `should_update` used by several proofs below. -/
theorem should_update_iff (c p : String) (a : Bool) :
    should_update c p a = true ↔
      c = p ∨ a = true ∨
        (¬(c = "SUCCESS" ∨ c = "FAILED") ∧
          STATUS_HIERARCHY c ≤ STATUS_HIERARCHY p) := by
  unfold should_update TERMINAL_STATUSES
  by_cases hcp : c = p
  · simp [hcp]
  · by_cases ha : a = true
    · simp [hcp, ha]
    · by_cases hs : c = "SUCCESS"
      · simp [hcp, ha, hs]
      · by_cases hf : c = "FAILED"
        · simp [hcp, ha, hs, hf]
        · by_cases hr : STATUS_HIERARCHY p < STATUS_HIERARCHY c
          · simp [hcp, ha, hs, hf, hr, Nat.not_le_of_lt hr]
          · simp [hcp, ha, hs, hf, hr, Nat.le_of_not_lt hr]

/-- `claimRank` is the hierarchy the code uses. -/
theorem claimRank_eq_hierarchy : claimRank = STATUS_HIERARCHY := rfl

/-- C1: `IdempotentCollectionUpdate.should_update(current, proposed,
allow_override)` returns true iff `current = proposed`, or `allow_override`,
or `current` is non-terminal and `rank proposed ≥ rank current` (with the
claim's rank table); with the three quoted examples.  Totality (the claim's
"never throws") is inherent: `should_update` is a total Lean function built
from dictionary lookups with defaults, exactly as the source. -/
theorem C1_should_update_spec :
    (∀ (current proposed : String) (allow_override : Bool),
      should_update current proposed allow_override = true ↔
        (current = proposed ∨ allow_override = true ∨
          (current ∉ ({"SUCCESS", "FAILED"} : Set String) ∧
            claimRank current ≤ claimRank proposed))) ∧
    should_update "SUCCESS" "PENDING" false = false ∧
    should_update "SUCCESS" "SUCCESS" false = true ∧
    should_update "INITIATED" "FAILED" false = true := by
  refine ⟨?_, rfl, rfl, rfl⟩
  intro current proposed allow_override
  have h := should_update_iff current proposed allow_override
  simpa [claimRank_eq_hierarchy, Set.mem_insert_iff, Set.mem_singleton_iff]
    using h

/-! ## `normalize_provider_status`
(integrations/paywithaccount/normalization.py 37-143) -/

/-- `DEFAULT_STATUS_MAP` from normalization.py, in source order. -/
def DEFAULT_STATUS_MAP : List (String × (String × Bool)) :=
  [("SUCCESS", ("SUCCESS", false)),
   ("SUCCESSFUL", ("SUCCESS", false)),
   ("COMPLETED", ("SUCCESS", false)),
   ("APPROVED", ("SUCCESS", false)),
   ("CONFIRMED", ("SUCCESS", false)),
   ("SETTLED", ("SUCCESS", false)),
   ("PAID", ("SUCCESS", false)),
   ("PROCESSED", ("SUCCESS", false)),
   ("FAILED", ("FAILED", false)),
   ("ERROR", ("FAILED", false)),
   ("DECLINED", ("FAILED", false)),
   ("REJECTED", ("FAILED", false)),
   ("CANCELLED", ("FAILED", false)),
   ("TIMEOUT", ("FAILED", false)),
   ("EXPIRED", ("FAILED", false)),
   ("ABORTED", ("FAILED", false)),
   ("INVALID", ("FAILED", false)),
   ("PENDING", ("PENDING", false)),
   ("PROCESSING", ("PENDING", false)),
   ("INITIATED", ("PENDING", false)),
   ("IN_PROGRESS", ("PENDING", false)),
   ("AWAITING", ("PENDING", false)),
   ("QUEUED", ("PENDING", false)),
   ("WAITINGFOROTP", ("PENDING", true)),
   ("WAITING_FOR_OTP", ("PENDING", true)),
   ("OTP_PENDING", ("PENDING", true)),
   ("PENDINGVALIDATION", ("PENDING", true)),
   ("PENDING_VALIDATION", ("PENDING", true)),
   ("VALIDATION_REQUIRED", ("PENDING", true)),
   ("AWAITING_VALIDATION", ("PENDING", true)),
   ("REQUIRES_OTP", ("PENDING", true)),
   ("OTP_REQUIRED", ("PENDING", true))]

/-- Key lookup in the status map (`normalized_key in status_map` followed by
`status_map[normalized_key]`). -/
def statusMapLookup : List (String × (String × Bool)) → String →
    Option (String × Bool)
  | [], _ => Option.none
  | (k, v) :: rest, key => if k = key then some v else statusMapLookup rest key

/-- Python `s.upper()` (ASCII case mapping, as the source's status strings
are ASCII). -/
def pyUpper (s : String) : String := String.mk (s.data.map Char.toUpper)

/-- Python `s.strip()`: leading and trailing whitespace removed. -/
def pyStrip (s : String) : String :=
  String.mk
    (((s.data.dropWhile Char.isWhitespace).reverse.dropWhile
      Char.isWhitespace).reverse)

/-- `normalize_provider_status(raw_status)` under the default mapping
(normalization.py 95-143).  A non-string (including `None`) or empty string
returns `(PENDING, False)` at the top guard; otherwise the uppercased,
trimmed key is looked up and a miss defaults to `(PENDING, False)`. -/
def normalize_provider_status (raw_status : PyVal) : String × Bool :=
  match raw_status with
  | .str s =>
    if s = "" then ("PENDING", false)
    else
      (statusMapLookup DEFAULT_STATUS_MAP (pyStrip (pyUpper s))).getD
        ("PENDING", false)
  | _ => ("PENDING", false)

/-- Any value a `statusMapLookup` hit returns is an entry of the map. -/
theorem statusMapLookup_mem (m : List (String × (String × Bool)))
    (k : String) (p : String × Bool) (h : statusMapLookup m k = some p) :
    p ∈ m.map Prod.snd := by
  induction m with
  | nil => simp [statusMapLookup] at h
  | cons e rest ih =>
    obtain ⟨ek, ev⟩ := e
    by_cases hk : ek = k
    · simp [statusMapLookup, hk] at h
      simp [h.symm]
    · simp [statusMapLookup, hk] at h
      simpa using Or.inr (ih h)

/-- `normalize_provider_status (str s)` depends only on the uppercased,
trimmed key. -/
theorem normalize_str_eq_lookup (s : String) :
    normalize_provider_status (.str s) =
      (statusMapLookup DEFAULT_STATUS_MAP (pyStrip (pyUpper s))).getD
        ("PENDING", false) := by
  by_cases h : s = ""
  · subst h; rfl
  · simp [normalize_provider_status, h]

/-- The first component of every result is in the closed status enum. -/
theorem normalize_closed (v : PyVal) :
    (normalize_provider_status v).1 = "SUCCESS" ∨
    (normalize_provider_status v).1 = "FAILED" ∨
    (normalize_provider_status v).1 = "PENDING" := by
  match v with
  | .none | .bool _ | .int _ | .dict _ | .list _ =>
    simp [normalize_provider_status]
  | .str s =>
    rw [normalize_str_eq_lookup]
    match h : statusMapLookup DEFAULT_STATUS_MAP (pyStrip (pyUpper s)) with
    | Option.none => simp
    | some p =>
      have hm := statusMapLookup_mem _ _ _ h
      have hall : ∀ q ∈ DEFAULT_STATUS_MAP.map Prod.snd,
          q.1 = "SUCCESS" ∨ q.1 = "FAILED" ∨ q.1 = "PENDING" := by decide
      simpa using hall p hm

/-- C5: `normalize_provider_status` is total, lands in the closed enum
{SUCCESS, FAILED, PENDING} × Bool, returns `(PENDING, False)` on `None`,
non-strings, the empty string, whitespace-only strings and any unmapped
string; the lookup is case-insensitive after trimming (results depend only
on the uppercased trimmed key); the success, failure and OTP families map
as listed; with the three quoted examples.  Totality (the claim's "never
raising") is inherent: the embedding is a total function, as the source
guards every input case. -/
theorem C5_normalize_provider_status_total :
    (∀ v : PyVal,
      (normalize_provider_status v).1 = "SUCCESS" ∨
      (normalize_provider_status v).1 = "FAILED" ∨
      (normalize_provider_status v).1 = "PENDING") ∧
    (∀ v : PyVal, v.isStr = false →
      normalize_provider_status v = ("PENDING", false)) ∧
    normalize_provider_status (.str "") = ("PENDING", false) ∧
    normalize_provider_status (.str "   ") = ("PENDING", false) ∧
    (∀ s : String,
      statusMapLookup DEFAULT_STATUS_MAP (pyStrip (pyUpper s)) =
        Option.none →
      normalize_provider_status (.str s) = ("PENDING", false)) ∧
    (∀ s t : String, pyStrip (pyUpper s) = pyStrip (pyUpper t) →
      normalize_provider_status (.str s) = normalize_provider_status (.str t)) ∧
    (∀ k ∈ ["SUCCESS", "SUCCESSFUL", "COMPLETED", "APPROVED", "CONFIRMED",
            "SETTLED", "PAID", "PROCESSED"],
      normalize_provider_status (.str k) = ("SUCCESS", false)) ∧
    (∀ k ∈ ["FAILED", "ERROR", "DECLINED", "REJECTED", "CANCELLED",
            "TIMEOUT", "EXPIRED", "ABORTED", "INVALID"],
      normalize_provider_status (.str k) = ("FAILED", false)) ∧
    (∀ k ∈ ["WAITINGFOROTP", "WAITING_FOR_OTP", "OTP_PENDING",
            "PENDINGVALIDATION", "PENDING_VALIDATION", "VALIDATION_REQUIRED",
            "AWAITING_VALIDATION", "REQUIRES_OTP", "OTP_REQUIRED"],
      normalize_provider_status (.str k) = ("PENDING", true)) ∧
    normalize_provider_status (.str "WaitingForOTP") = ("PENDING", true) ∧
    normalize_provider_status (.str "DECLINED") = ("FAILED", false) ∧
    normalize_provider_status PyVal.none = ("PENDING", false) := by
  refine ⟨normalize_closed, ?_, rfl, by decide, ?_, ?_, by decide, by decide,
    by decide, by decide, by decide, rfl⟩
  · intro v hv
    match v, hv with
    | .none, _ | .bool _, _ | .int _, _ | .dict _, _ | .list _, _ => rfl
  · intro s h
    rw [normalize_str_eq_lookup, h]; rfl
  · intro s t h
    rw [normalize_str_eq_lookup, normalize_str_eq_lookup, h]

/-- Witness for C1 at concrete inputs. -/
theorem C1_should_update_spec_witness :
    should_update "SUCCESS" "PENDING" false = false ∧
    (should_update "INITIATED" "FAILED" false = true ↔
      ("INITIATED" : String) = "FAILED" ∨ (false = true) ∨
        (("INITIATED" : String) ∉ ({"SUCCESS", "FAILED"} : Set String) ∧
          claimRank "INITIATED" ≤ claimRank "FAILED")) :=
  ⟨C1_should_update_spec.2.1, C1_should_update_spec.1 "INITIATED" "FAILED" false⟩

/-- Witness for C5 at concrete inputs discharging its hypotheses. -/
theorem C5_normalize_provider_status_total_witness :
    normalize_provider_status (.str "Declined") =
      normalize_provider_status (.str "DECLINED") ∧
    normalize_provider_status (.str "NO_SUCH_STATUS") = ("PENDING", false) ∧
    normalize_provider_status (.bool true) = ("PENDING", false) :=
  ⟨C5_normalize_provider_status_total.2.2.2.2.2.1 "Declined" "DECLINED"
      (by decide),
   C5_normalize_provider_status_total.2.2.2.2.1 "NO_SUCH_STATUS" (by decide),
   C5_normalize_provider_status_total.2.1 (.bool true) rfl⟩

/-! ## Field extractors (webhooks/utils.py 22-359)

The helpers guard every dictionary access with an `isinstance` check, so
they are embedded through the fallible `pyGet` primitive and proved to
always return `ok`. -/

/-- Loop body of `_get_by_path` (utils.py 22-33): walk the keys, returning
Python `None` when a node is not a dict or a key is missing. -/
def getByPathGo : PyVal → List String → Except PyErr PyVal
  | node, [] => .ok node
  | node, key :: rest => do
    if node.isDict = false then
      return PyVal.none
    let v ← pyGet node key PyVal.none
    if v.isNone then
      return PyVal.none
    getByPathGo v rest

/-- `_get_by_path(payload, path)`. -/
def _get_by_path (payload : PyVal) (path : List String) :
    Except PyErr PyVal :=
  if payload.isDict = false then .ok PyVal.none
  else getByPathGo payload path

/-- The string form `_first_non_empty` (utils.py 36-50) gives a candidate
value: trimmed for strings, Python `str()` otherwise.  (The source's
`try/except` around `str()` can never fire: `str()` is total here, as in
Python on these values.) -/
def strOfVal (v : PyVal) : String :=
  match v with
  | .str s => pyStrip s
  | v => pyStrFn v

/-- `_first_non_empty(payload, paths)` body. -/
def _first_non_empty (payload : PyVal) :
    List (List String) → Except PyErr (Option String)
  | [] => .ok Option.none
  | path :: rest => do
    let val ← _get_by_path payload path
    if val.isNone then
      _first_non_empty payload rest
    else
      if strOfVal val = "" then _first_non_empty payload rest
      else return some (strOfVal val)

/-- Integer fragment of Python `float(s)` parsing: the embedding treats a
string as numeric iff it parses as an integer (fractional literals are out
of scope; only parse success/failure is observable in the claims). -/
def pyParseNumeric (s : String) : Option Int := s.toInt?

/-- `_first_numeric(payload, paths)` (utils.py 53-70): first candidate path
holding an embedded number or a numeric string; the `except (ValueError,
TypeError)` branch is the parse-failure fallthrough. -/
def _first_numeric (payload : PyVal) :
    List (List String) → Except PyErr (Option Int)
  | [] => .ok Option.none
  | path :: rest => do
    let val ← _get_by_path payload path
    match val with
    | .none => _first_numeric payload rest
    | .int i => return some i
    | .str s =>
      match pyParseNumeric s with
      | some i => return some i
      | Option.none => _first_numeric payload rest
    | _ => _first_numeric payload rest

/-- Candidate paths of `extract_request_ref` (utils.py 94-115). -/
def requestRefPaths : List (List String) :=
  [["request_ref"], ["requestRef"], ["request_reference"],
   ["requestReference"], ["ref"],
   ["transaction", "request_ref"], ["transaction", "requestRef"],
   ["transaction", "reference"],
   ["data", "request_ref"], ["data", "requestRef"], ["data", "reference"],
   ["meta", "request_ref"], ["meta", "requestRef"],
   ["event", "request_ref"], ["event", "requestRef"],
   ["payload", "request_ref"], ["payload", "requestRef"]]

/-- `extract_request_ref(payload)`. -/
def extract_request_ref (payload : PyVal) : Except PyErr (Option String) :=
  _first_non_empty payload requestRefPaths

/-- Candidate paths of `extract_provider_ref` (utils.py 140-169). -/
def providerRefPaths : List (List String) :=
  [["provider_ref"], ["providerRef"], ["transaction_ref"],
   ["transactionRef"], ["txRef"], ["tx_ref"], ["reference"], ["ref"],
   ["flutterwave_ref"], ["flutterwaveRef"], ["paystack_ref"],
   ["paystackRef"], ["monnify_ref"], ["monnifyRef"],
   ["transaction", "reference"], ["transaction", "ref"],
   ["transaction", "transaction_ref"], ["transaction", "transactionRef"],
   ["data", "reference"], ["data", "transaction_ref"],
   ["data", "transactionRef"], ["data", "txRef"],
   ["meta", "provider_ref"], ["meta", "providerRef"],
   ["event", "reference"]]

/-- `extract_provider_ref(payload)`. -/
def extract_provider_ref (payload : PyVal) : Except PyErr (Option String) :=
  _first_non_empty payload providerRefPaths

/-- Candidate paths of `extract_status` (utils.py 193-211). -/
def statusPaths : List (List String) :=
  [["status"], ["transaction_status"], ["transactionStatus"],
   ["payment_status"], ["paymentStatus"], ["state"],
   ["transaction", "status"], ["transaction", "state"],
   ["data", "status"], ["data", "transaction_status"],
   ["data", "transactionStatus"],
   ["event", "status"], ["event", "state"],
   ["meta", "status"], ["response", "status"]]

/-- `extract_status(payload)` (the utils helper). -/
def extract_status (payload : PyVal) : Except PyErr (Option String) :=
  _first_non_empty payload statusPaths

/-- Candidate paths of `extract_amount` (utils.py 236-259). -/
def amountPaths : List (List String) :=
  [["amount"], ["value"], ["total"], ["total_amount"], ["totalAmount"],
   ["transaction_amount"], ["transactionAmount"], ["payable_amount"],
   ["payableAmount"],
   ["transaction", "amount"], ["transaction", "value"],
   ["transaction", "total"],
   ["data", "amount"], ["data", "value"], ["data", "total"],
   ["data", "transaction_amount"],
   ["meta", "amount"], ["meta", "value"],
   ["body", "amount"], ["body", "value"]]

/-- `extract_amount(payload)`. -/
def extract_amount (payload : PyVal) : Except PyErr (Option Int) :=
  _first_numeric payload amountPaths

/-- Candidate paths of `extract_currency` (utils.py 284-300). -/
def currencyPaths : List (List String) :=
  [["currency"], ["currency_code"], ["currencyCode"], ["currency_type"],
   ["currencyType"], ["curr"],
   ["transaction", "currency"], ["transaction", "currency_code"],
   ["data", "currency"], ["data", "currency_code"], ["data", "currencyCode"],
   ["meta", "currency"], ["body", "currency"]]

/-- `extract_currency(payload)`. -/
def extract_currency (payload : PyVal) : Except PyErr (Option String) :=
  _first_non_empty payload currencyPaths

/-- Candidate paths of `extract_event_id` (utils.py 330-358); note the bare
top-level `["event"]` path comes before the nested `["event", "id"]`. -/
def eventIdPaths : List (List String) :=
  [["event_id"], ["eventId"], ["event"], ["id"], ["webhook_id"],
   ["webhookId"], ["event_key"], ["eventKey"],
   ["flutterwave_event_id"], ["flutterwaveEventId"],
   ["paystack_reference"], ["monnify_transaction_ref"],
   ["event", "id"], ["event", "event_id"],
   ["data", "event_id"], ["data", "eventId"], ["data", "id"],
   ["meta", "event_id"], ["meta", "eventId"],
   ["payload", "event_id"], ["payload", "id"]]

/-- `extract_event_id(payload)`. -/
def extract_event_id (payload : PyVal) : Except PyErr (Option String) :=
  _first_non_empty payload eventIdPaths

/-- Simp set unfolding the `Except` monad operations. -/
theorem except_bind_ok {α β : Type} (a : α) (f : α → Except PyErr β) :
    (Except.ok a >>= f) = f a := rfl

/-- `pure` in the `Except` monad is `ok`. -/
theorem except_pure_eq {α : Type} (a : α) :
    (pure a : Except PyErr α) = .ok a := rfl

/-- A guarded dictionary access succeeds. -/
theorem pyGet_ok_of_isDict (node : PyVal) (key : String) (d : PyVal)
    (h : node.isDict = true) : ∃ v, pyGet node key d = .ok v := by
  match node, h with
  | .dict kvs, _ => exact ⟨_, rfl⟩

/-- `_get_by_path`'s loop never raises: every access is behind an
`isinstance` check. -/
theorem getByPathGo_ok (path : List String) (node : PyVal) :
    ∃ v, getByPathGo node path = .ok v := by
  induction path generalizing node with
  | nil => exact ⟨node, rfl⟩
  | cons key rest ih =>
    by_cases hd : node.isDict = true
    · obtain ⟨v, hv⟩ := pyGet_ok_of_isDict node key PyVal.none hd
      by_cases hn : v.isNone = true
      · exact ⟨PyVal.none, by
          simp [getByPathGo, hd, hv, hn, except_bind_ok, except_pure_eq]⟩
      · obtain ⟨w, hw⟩ := ih v
        exact ⟨w, by
          simp [getByPathGo, hd, hv, hn, hw, except_bind_ok, except_pure_eq]⟩
    · refine ⟨PyVal.none, ?_⟩
      simp only [Bool.not_eq_true] at hd
      simp [getByPathGo, hd, except_pure_eq]

/-- `_get_by_path` never raises. -/
theorem get_by_path_ok (payload : PyVal) (path : List String) :
    ∃ v, _get_by_path payload path = .ok v := by
  unfold _get_by_path
  by_cases h : payload.isDict = false
  · exact ⟨PyVal.none, by simp [h]⟩
  · simpa [h] using getByPathGo_ok path payload

/-- `_first_non_empty` never raises. -/
theorem first_non_empty_ok (paths : List (List String)) (payload : PyVal) :
    ∃ r, _first_non_empty payload paths = .ok r := by
  induction paths with
  | nil => exact ⟨Option.none, rfl⟩
  | cons path rest ih =>
    obtain ⟨v, hv⟩ := get_by_path_ok payload path
    obtain ⟨r, hr⟩ := ih
    by_cases hn : v.isNone = true
    · exact ⟨r, by
        simp [_first_non_empty, hv, hn, hr, except_bind_ok, except_pure_eq]⟩
    · by_cases he : strOfVal v = ""
      · exact ⟨r, by
          simp [_first_non_empty, hv, hn, he, hr, except_bind_ok,
            except_pure_eq]⟩
      · exact ⟨some (strOfVal v), by
          simp [_first_non_empty, hv, hn, he, except_bind_ok, except_pure_eq]⟩

/-- `_first_numeric` never raises. -/
theorem first_numeric_ok (paths : List (List String)) (payload : PyVal) :
    ∃ r, _first_numeric payload paths = .ok r := by
  induction paths with
  | nil => exact ⟨Option.none, rfl⟩
  | cons path rest ih =>
    obtain ⟨v, hv⟩ := get_by_path_ok payload path
    obtain ⟨r, hr⟩ := ih
    match v, hv with
    | .none, hv =>
      exact ⟨r, by simp [_first_numeric, hv, hr, except_bind_ok]⟩
    | .int i, hv =>
      exact ⟨some i, by
        simp [_first_numeric, hv, except_bind_ok, except_pure_eq]⟩
    | .str s, hv =>
      match hp : pyParseNumeric s with
      | some i =>
        exact ⟨some i, by
          simp [_first_numeric, hv, hp, except_bind_ok, except_pure_eq]⟩
      | Option.none =>
        exact ⟨r, by simp [_first_numeric, hv, hp, hr, except_bind_ok]⟩
    | .bool b, hv =>
      exact ⟨r, by simp [_first_numeric, hv, hr, except_bind_ok]⟩
    | .dict kvs, hv =>
      exact ⟨r, by simp [_first_numeric, hv, hr, except_bind_ok]⟩
    | .list vs, hv =>
      exact ⟨r, by simp [_first_numeric, hv, hr, except_bind_ok]⟩

/-- C7 (code-bug evaluation): on `{"event": {"id": "fw_evt_999"}}` the
top-level `["event"]` candidate path matches before the nested
`["event", "id"]` path, and `_first_non_empty` passes the nested dict
through Python `str()`, so `extract_event_id` returns the string
`"{'id': 'fw_evt_999'}"` — not `"fw_evt_999"` as the claim, the function's
own docstring (utils.py 325-326) and the repository's test
`idempotency_tests.test_nested_in_event` require.  The second quoted
example does return `None`. -/
theorem C7_extract_event_id_eval :
    extract_event_id (.dict [("event", .dict [("id", .str "fw_evt_999")])]) =
      .ok (some ("\x7b" ++ squo ++ "id" ++ squo ++ ": " ++ squo ++
        "fw_evt_999" ++ squo ++ "\x7d")) ∧
    extract_event_id (.dict [("event", .dict [("id", .str "fw_evt_999")])]) ≠
      .ok (some "fw_evt_999") ∧
    extract_event_id (.dict [("some_other_field", .str "value")]) =
      .ok Option.none := by
  refine ⟨rfl, ?_, rfl⟩
  intro h
  rw [show extract_event_id
      (.dict [("event", .dict [("id", .str "fw_evt_999")])]) =
      .ok (some ("\x7b" ++ squo ++ "id" ++ squo ++ ": " ++ squo ++
        "fw_evt_999" ++ squo ++ "\x7d")) from rfl] at h
  simp only [Except.ok.injEq, Option.some.injEq] at h
  exact absurd h (by decide)

/-! ## `PayloadParser` (webhooks/services.py 25-120) -/

/-- The three fields `PayloadParser.extract_from_payload` returns. -/
structure ExtractedFields where
  request_ref : PyVal
  provider_ref : PyVal
  status : PyVal
deriving Repr

/-- The `request_ref` chain of `_extract_paywithaccount`
(services.py 63-69): note the final fallback `payload.get("meta",
{}).get("request_ref")` calls `.get` on whatever the `meta` member is. -/
def pwaRequestRef (payload : PyVal) : Except PyErr PyVal :=
  pyOr (pyGet payload "request_ref" .none)
    (pyOr (pyGet payload "requestRef" .none)
      (pyOr (pyGet payload "ref" .none)
        (pyOr (pyGet payload "reference" .none)
          (do
            let m ← pyGet payload "meta" (.dict [])
            pyGet m "request_ref" .none))))

/-- The `provider_ref` chain of `_extract_paywithaccount`
(services.py 72-80). -/
def pwaProviderRef (payload : PyVal) : Except PyErr PyVal :=
  pyOr (pyGet payload "provider_ref" .none)
    (pyOr (pyGet payload "providerRef" .none)
      (pyOr (pyGet payload "transaction_ref" .none)
        (pyOr (pyGet payload "transactionRef" .none)
          (pyOr (pyGet payload "reference" .none)
            (pyOr (pyGet payload "txRef" .none)
              (do
                let d ← pyGet payload "data" (.dict [])
                pyGet d "reference" .none))))))

/-- The `status` chain of `_extract_paywithaccount` (services.py 83-88),
ending in the `"unknown"` literal fallback. -/
def pwaStatus (payload : PyVal) : Except PyErr PyVal :=
  pyOr (pyGet payload "status" .none)
    (pyOr
      (do
        let t ← pyGet payload "transaction" (.dict [])
        pyGet t "status" .none)
      (pyOr
        (do
          let d ← pyGet payload "data" (.dict [])
          pyGet d "status" .none)
        (pure (.str "unknown"))))

/-- `PayloadParser._extract_paywithaccount(payload)`. -/
def _extract_paywithaccount (payload : PyVal) :
    Except PyErr ExtractedFields := do
  let r ← pwaRequestRef payload
  let p ← pwaProviderRef payload
  let s ← pwaStatus payload
  pure ⟨r, p, s⟩

/-- `PayloadParser._extract_generic(payload)` (services.py 97-120). -/
def _extract_generic (payload : PyVal) : Except PyErr ExtractedFields := do
  let r ← pyOr (pyGet payload "request_ref" .none)
    (pyOr (pyGet payload "requestRef" .none)
      (pyOr (pyGet payload "ref" .none) (pyGet payload "id" .none)))
  let p ← pyOr (pyGet payload "provider_ref" .none)
    (pyOr (pyGet payload "providerRef" .none)
      (pyOr (pyGet payload "transaction_ref" .none)
        (pyGet payload "reference" .none)))
  let s ← pyGet payload "status" (.str "unknown")
  pure ⟨r, p, s⟩

/-- Python `s.lower()` (ASCII). -/
def pyLower (s : String) : String := String.mk (s.data.map Char.toLower)

/-- `PayloadParser.extract_from_payload(payload, provider)`
(services.py 34-56). -/
def extract_from_payload (payload : PyVal) (provider : String) :
    Except PyErr ExtractedFields :=
  if pyLower provider = "paywithaccount" ∨ pyLower provider = "onepipe" then
    _extract_paywithaccount payload
  else
    _extract_generic payload

/-- `pyOr` of two successful computations succeeds. -/
theorem pyOr_ok {a b : Except PyErr PyVal}
    (ha : ∃ x, a = .ok x) (hb : ∃ y, b = .ok y) :
    ∃ z, pyOr a b = .ok z := by
  obtain ⟨x, hx⟩ := ha
  obtain ⟨y, hy⟩ := hb
  by_cases ht : truthy x = true
  · exact ⟨x, by simp [pyOr, hx, ht, except_bind_ok, except_pure_eq]⟩
  · exact ⟨y, by simp [pyOr, hx, ht, hy, except_bind_ok, except_pure_eq]⟩

/-- The `payload.get(key, {})` container member is a dict when `key` is
either absent or mapped to a dict. -/
def containerDictOk (payload : PyVal) (key : String) : Bool :=
  match payload with
  | .dict kvs =>
    match dictLookup kvs key with
    | some v => v.isDict
    | Option.none => true
  | _ => false

/-- Fetching a well-formed container member succeeds with a dict. -/
theorem pyGet_container_ok (payload : PyVal) (key : String)
    (h : containerDictOk payload key = true) :
    ∃ m, pyGet payload key (.dict []) = .ok m ∧ m.isDict = true := by
  match payload, h with
  | .dict kvs, h =>
    match hk : dictLookup kvs key with
    | some v =>
      refine ⟨v, by simp [pyGet, hk], ?_⟩
      simpa [containerDictOk, hk] using h
    | Option.none => exact ⟨.dict [], by simp [pyGet, hk], rfl⟩

/-- A top-level `payload.get` on a dict payload succeeds. -/
theorem pyGet_ok_of_dict {payload : PyVal} (key : String) (d : PyVal)
    (h : payload.isDict = true) : ∃ v, pyGet payload key d = .ok v :=
  pyGet_ok_of_isDict payload key d h

/-- A nested lookup `payload.get(key, {}).get(inner)` succeeds when the
container member is well formed. -/
theorem nested_get_ok (payload : PyVal) (key inner : String)
    (h : containerDictOk payload key = true) :
    ∃ v, (do
      let m ← pyGet payload key (.dict [])
      pyGet m inner PyVal.none) = .ok v := by
  obtain ⟨m, hm, hmd⟩ := pyGet_container_ok payload key h
  obtain ⟨v, hv⟩ := pyGet_ok_of_isDict m inner PyVal.none hmd
  exact ⟨v, by rw [hm, except_bind_ok, hv]⟩

/-- `_extract_paywithaccount` succeeds on a dict payload whose `meta`,
`data` and `transaction` members (when present) are dicts. -/
theorem extract_paywithaccount_ok (payload : PyVal)
    (hp : payload.isDict = true)
    (hmeta : containerDictOk payload "meta" = true)
    (hdata : containerDictOk payload "data" = true)
    (htx : containerDictOk payload "transaction" = true) :
    ∃ e, _extract_paywithaccount payload = .ok e := by
  have hr : ∃ r, pwaRequestRef payload = .ok r := by
    unfold pwaRequestRef
    exact pyOr_ok (pyGet_ok_of_dict _ _ hp)
      (pyOr_ok (pyGet_ok_of_dict _ _ hp)
        (pyOr_ok (pyGet_ok_of_dict _ _ hp)
          (pyOr_ok (pyGet_ok_of_dict _ _ hp)
            (nested_get_ok payload "meta" "request_ref" hmeta))))
  have hpr : ∃ p, pwaProviderRef payload = .ok p := by
    unfold pwaProviderRef
    exact pyOr_ok (pyGet_ok_of_dict _ _ hp)
      (pyOr_ok (pyGet_ok_of_dict _ _ hp)
        (pyOr_ok (pyGet_ok_of_dict _ _ hp)
          (pyOr_ok (pyGet_ok_of_dict _ _ hp)
            (pyOr_ok (pyGet_ok_of_dict _ _ hp)
              (pyOr_ok (pyGet_ok_of_dict _ _ hp)
                (nested_get_ok payload "data" "reference" hdata))))))
  have hs : ∃ s, pwaStatus payload = .ok s := by
    unfold pwaStatus
    exact pyOr_ok (pyGet_ok_of_dict _ _ hp)
      (pyOr_ok (nested_get_ok payload "transaction" "status" htx)
        (pyOr_ok (nested_get_ok payload "data" "status" hdata)
          ⟨.str "unknown", rfl⟩))
  obtain ⟨r, hr⟩ := hr
  obtain ⟨p, hpr⟩ := hpr
  obtain ⟨s, hs⟩ := hs
  exact ⟨⟨r, p, s⟩, by
    simp [_extract_paywithaccount, hr, hpr, hs, except_bind_ok,
      except_pure_eq]⟩

/-- `_extract_generic` succeeds on any dict payload. -/
theorem extract_generic_ok (payload : PyVal) (hp : payload.isDict = true) :
    ∃ e, _extract_generic payload = .ok e := by
  have hr : ∃ r, pyOr (pyGet payload "request_ref" .none)
      (pyOr (pyGet payload "requestRef" .none)
        (pyOr (pyGet payload "ref" .none) (pyGet payload "id" .none))) =
      .ok r :=
    pyOr_ok (pyGet_ok_of_dict _ _ hp)
      (pyOr_ok (pyGet_ok_of_dict _ _ hp)
        (pyOr_ok (pyGet_ok_of_dict _ _ hp) (pyGet_ok_of_dict _ _ hp)))
  have hpr : ∃ p, pyOr (pyGet payload "provider_ref" .none)
      (pyOr (pyGet payload "providerRef" .none)
        (pyOr (pyGet payload "transaction_ref" .none)
          (pyGet payload "reference" .none))) = .ok p :=
    pyOr_ok (pyGet_ok_of_dict _ _ hp)
      (pyOr_ok (pyGet_ok_of_dict _ _ hp)
        (pyOr_ok (pyGet_ok_of_dict _ _ hp) (pyGet_ok_of_dict _ _ hp)))
  obtain ⟨r, hr⟩ := hr
  obtain ⟨p, hpr⟩ := hpr
  obtain ⟨s, hs⟩ := pyGet_ok_of_isDict payload "status" (.str "unknown") hp
  exact ⟨⟨r, p, s⟩, by
    simp [_extract_generic, hr, hpr, hs, except_bind_ok, except_pure_eq]⟩

/-- C6 counterexample: on the payload `{"meta": "x"}` the claim fails —
`PayloadParser._extract_paywithaccount` raises `AttributeError`, because
every top-level `request_ref` candidate is missing and the fallback
`payload.get("meta", {}).get("request_ref")` calls `.get` on the string
`"x"`. -/
theorem C6_extract_paywithaccount_raises :
    _extract_paywithaccount (.dict [("meta", .str "x")]) =
      .error .attributeError ∧
    extract_from_payload (.dict [("meta", .str "x")]) "paywithaccount" =
      .error .attributeError := ⟨rfl, rfl⟩

/-- C6 (amended): the six webhooks/utils extractors never raise on any
input whatsoever (malformed, non-dict or otherwise), returning their
not-found default instead; the `PayloadParser` extraction never raises
provided the payload is a dict whose `meta`, `data` and `transaction`
members, when present, are dicts (a non-dict payload or a non-dict
container member makes `_extract_paywithaccount` raise, per the
counterexample). -/
theorem C6_extractors_never_raise :
    (∀ payload : PyVal, ∃ r, extract_request_ref payload = .ok r) ∧
    (∀ payload : PyVal, ∃ r, extract_provider_ref payload = .ok r) ∧
    (∀ payload : PyVal, ∃ r, extract_status payload = .ok r) ∧
    (∀ payload : PyVal, ∃ r, extract_amount payload = .ok r) ∧
    (∀ payload : PyVal, ∃ r, extract_currency payload = .ok r) ∧
    (∀ payload : PyVal, ∃ r, extract_event_id payload = .ok r) ∧
    (∀ payload : PyVal, payload.isDict = true →
      containerDictOk payload "meta" = true →
      containerDictOk payload "data" = true →
      containerDictOk payload "transaction" = true →
      ∃ e, _extract_paywithaccount payload = .ok e) ∧
    (∀ payload : PyVal, payload.isDict = true →
      ∃ e, _extract_generic payload = .ok e) :=
  ⟨fun p => first_non_empty_ok requestRefPaths p,
   fun p => first_non_empty_ok providerRefPaths p,
   fun p => first_non_empty_ok statusPaths p,
   fun p => first_numeric_ok amountPaths p,
   fun p => first_non_empty_ok currencyPaths p,
   fun p => first_non_empty_ok eventIdPaths p,
   extract_paywithaccount_ok,
   extract_generic_ok⟩

/-- Witness for C6 at a concrete well-formed and a concrete malformed
input. -/
theorem C6_extractors_never_raise_witness :
    (∃ e, _extract_paywithaccount
      (.dict [("request_ref", .str "r1"), ("meta", .dict [])]) = .ok e) ∧
    (∃ e, _extract_generic (.dict [("id", .str "r2")]) = .ok e) ∧
    (∃ r, extract_request_ref (.int 7) = .ok r) :=
  ⟨C6_extractors_never_raise.2.2.2.2.2.2.1
      (.dict [("request_ref", .str "r1"), ("meta", .dict [])])
      rfl rfl rfl rfl,
   C6_extractors_never_raise.2.2.2.2.2.2.2 (.dict [("id", .str "r2")]) rfl,
   C6_extractors_never_raise.1 (.int 7)⟩

/-! ## `CollectionsService` status updates (collections/services.py)

A `Collection` row is embedded with the fields the reconciliation path
reads or writes: `status`, `provider_ref`, the `metadata['webhook_payload']`
slot, the `metadata['needs_validation']` flag and the statuses of its
`Transaction` rows (in row order).  `raw_response` and the audit-only
metadata slots are not modelled: no claim mentions them, and
`process_event` passes `response_body=None`. -/
structure CollectionState where
  request_ref : String
  provider_ref : PyVal
  status : String
  needs_validation : Bool
  webhook_payload : Option PyVal
  txs : List String
deriving Repr

/-- The webhook `status_map` of `update_collection_from_webhook`
(services.py 369-378): `status_map.get(new_status.lower(),
new_status.upper())`. -/
def webhookNormalize (new_status : String) : String :=
  let l := pyLower new_status
  if l = "success" then "SUCCESS"
  else if l = "completed" then "SUCCESS"
  else if l = "failed" then "FAILED"
  else if l = "pending" then "INITIATED"
  else if l = "processing" then "INITIATED"
  else if l = "initiated" then "INITIATED"
  else pyUpper new_status

/-- The transaction-status mapping of the webhook cascade
(services.py 421-426). -/
def webhookTxStatus (normalized : String) : String :=
  if normalized = "SUCCESS" then "SUCCESS"
  else if normalized = "FAILED" then "FAILED"
  else if normalized = "CANCELLED" then "FAILED"
  else if normalized = "INITIATED" then "PENDING"
  else "PENDING"

/-- The core of `update_collection_from_webhook` (services.py 386-441) on
one collection row: gate the status through the state machine, overwrite
`provider_ref` when the extracted value is truthy, store the first webhook
payload in metadata, and cascade the admitted status to the PENDING
transactions. -/
def applyWebhookToCollection (c : CollectionState) (new_status_raw : String)
    (provider_ref : PyVal) (payload : PyVal) (allow_override : Bool) :
    CollectionState :=
  let normalized := webhookNormalize new_status_raw
  let su := should_update c.status normalized allow_override
  { c with
    status := if su then normalized else c.status
    provider_ref := if truthy provider_ref then provider_ref
      else c.provider_ref
    webhook_payload := if c.webhook_payload.isNone then some payload
      else c.webhook_payload
    txs := if su then
        c.txs.map (fun t => if t = "PENDING" then webhookTxStatus normalized
          else t)
      else c.txs }

/-- `response_json.get('status') or response_json.get('transaction_status')`
on a dict response (services.py 514, 626). -/
def responseProviderStatus (kvs : List (String × PyVal)) : PyVal :=
  let a := (dictLookup kvs "status").getD .none
  if truthy a then a else (dictLookup kvs "transaction_status").getD .none

/-- The common `new_status` selection of `validate_collection`
(services.py 522-531) and `query_collection_status` (services.py 634-642):
SUCCESS and FAILED pass through, both remaining branches give PENDING. -/
def newStatusFrom (normalized : String) : String :=
  if normalized = "SUCCESS" then "SUCCESS"
  else if normalized = "FAILED" then "FAILED"
  else "PENDING"

/-- `validate_collection` (services.py 444-575) restricted to its effect on
the collection row: a non-PENDING status or a missing `needs_validation`
flag raises before any mutation (embedded as the identity); a non-dict
provider response raises inside the `try` (caught, re-raised as
`CollectionError`, transaction rolled back — also the identity).  Otherwise
the new status is applied unconditionally and cascaded to PENDING
transactions (`"PENDING" if new_status == "PENDING" else new_status`). -/
def validate_collection (c : CollectionState) (response : PyVal) :
    CollectionState :=
  if c.status ≠ "PENDING" then c
  else if c.needs_validation = false then c
  else
    match response with
    | .dict kvs =>
      let norm := normalize_provider_status (responseProviderStatus kvs)
      let new_status := newStatusFrom norm.1
      { c with
        status := new_status
        needs_validation := norm.2
        txs := c.txs.map (fun t => if t = "PENDING" then
            (if new_status = "PENDING" then "PENDING" else new_status)
          else t) }
    | _ => c

/-- `query_collection_status` (services.py 577-679) restricted to its
effect on the collection row: no usable reference or a non-dict provider
response raises (identity); otherwise, whenever the reported status
differs from the current one it is applied **unconditionally** — the state
machine is not consulted on this path — and cascaded to PENDING
transactions. -/
def query_collection_status (c : CollectionState) (response : PyVal) :
    CollectionState :=
  if truthy c.provider_ref = false ∧ c.request_ref = "" then c
  else
    match response with
    | .dict kvs =>
      let norm := normalize_provider_status (responseProviderStatus kvs)
      let new_status := newStatusFrom norm.1
      if c.status ≠ new_status then
        { c with
          status := new_status
          needs_validation := norm.2
          txs := c.txs.map (fun t => if t = "PENDING" then
              (if new_status = "PENDING" then "PENDING" else new_status)
            else t) }
      else c
    | _ => c

/-- The status-updating operations claim C2 ranges over. -/
inductive CollOp : Type where
  | webhook (raw_status : String) (provider_ref : PyVal) (payload : PyVal)
  | validation (response : PyVal)
  | query (response : PyVal)

/-- Whether an operation is a provider poll. -/
def CollOp.isQuery : CollOp → Bool
  | .query _ => true
  | _ => false

/-- Apply one operation (webhooks run without `allow_override`, as
`process_event` always does). -/
def applyCollOp (op : CollOp) (c : CollectionState) : CollectionState :=
  match op with
  | .webhook raw pr pl => applyWebhookToCollection c raw pr pl false
  | .validation r => validate_collection c r
  | .query r => query_collection_status c r

/-- Apply a sequence of operations, left to right. -/
def applyCollOps (c : CollectionState) : List CollOp → CollectionState
  | [] => c
  | op :: rest => applyCollOps (applyCollOp op c) rest

/-- The observed status history of a collection under a sequence of
operations (initial status included). -/
def statusTrace (c : CollectionState) : List CollOp → List String
  | [] => [c.status]
  | op :: rest => c.status :: statusTrace (applyCollOp op c) rest

/-- Terminal statuses, propositionally. -/
theorem terminal_iff (s : String) :
    TERMINAL_STATUSES s = true ↔ s = "SUCCESS" ∨ s = "FAILED" := by
  simp [TERMINAL_STATUSES]

/-- `newStatusFrom` lands in {SUCCESS, FAILED, PENDING}. -/
theorem newStatusFrom_cases (n : String) :
    newStatusFrom n = "SUCCESS" ∨ newStatusFrom n = "FAILED" ∨
      newStatusFrom n = "PENDING" := by
  unfold newStatusFrom
  split_ifs <;> simp

/-- `newStatusFrom` always has rank at least that of PENDING. -/
theorem newStatusFrom_rank (n : String) :
    STATUS_HIERARCHY "PENDING" ≤ STATUS_HIERARCHY (newStatusFrom n) := by
  rcases newStatusFrom_cases n with h | h | h <;> rw [h] <;> decide

/-- One webhook update without override never lowers the rank and never
moves off a terminal status. -/
theorem webhook_step (c : CollectionState) (raw : String)
    (pr pl : PyVal) :
    STATUS_HIERARCHY c.status ≤
      STATUS_HIERARCHY (applyWebhookToCollection c raw pr pl false).status ∧
    (TERMINAL_STATUSES c.status = true →
      (applyWebhookToCollection c raw pr pl false).status = c.status) := by
  by_cases hsu : should_update c.status (webhookNormalize raw) false = true
  · have hspec := (should_update_iff c.status (webhookNormalize raw)
      false).mp hsu
    have hst : (applyWebhookToCollection c raw pr pl false).status =
        webhookNormalize raw := by
      simp [applyWebhookToCollection, hsu]
    rcases hspec with heq | hfalse | ⟨hterm, hle⟩
    · rw [hst, ← heq]
      exact ⟨le_refl _, fun _ => rfl⟩
    · exact absurd hfalse (by simp)
    · refine ⟨hst ▸ hle, fun ht => ?_⟩
      exact absurd ((terminal_iff c.status).mp ht) hterm
  · have hst : (applyWebhookToCollection c raw pr pl false).status =
        c.status := by
      simp [applyWebhookToCollection, hsu]
    exact ⟨hst ▸ le_refl _, fun _ => hst⟩

/-- A non-dict provider response leaves `validate_collection` untouched
(the `.get` raises, is caught and re-raised as `CollectionError`, and the
atomic transaction rolls back). -/
theorem validate_nondict (c : CollectionState) (r : PyVal)
    (h : r.isDict = false) : validate_collection c r = c := by
  unfold validate_collection
  split_ifs <;> (cases r <;> simp_all [PyVal.isDict])

/-- One validation never lowers the rank and never moves off a terminal
status (it refuses to run at all unless the collection is PENDING). -/
theorem validation_step (c : CollectionState) (r : PyVal) :
    STATUS_HIERARCHY c.status ≤
      STATUS_HIERARCHY (validate_collection c r).status ∧
    (TERMINAL_STATUSES c.status = true →
      (validate_collection c r).status = c.status) := by
  by_cases hp : c.status = "PENDING"
  · by_cases hv : c.needs_validation = false
    · have h0 : validate_collection c r = c := by
        simp [validate_collection, hv]
      rw [h0]
      exact ⟨le_refl _, fun _ => rfl⟩
    · cases r with
      | dict kvs =>
        have hst : (validate_collection c (.dict kvs)).status =
            newStatusFrom (normalize_provider_status
              (responseProviderStatus kvs)).1 := by
          simp [validate_collection, hp, hv]
        constructor
        · rw [hst, hp]
          exact newStatusFrom_rank _
        · intro ht
          rw [hp] at ht
          exact absurd ht (by decide)
      | none =>
        rw [validate_nondict c PyVal.none rfl]
        exact ⟨le_refl _, fun _ => rfl⟩
      | bool b =>
        rw [validate_nondict c (PyVal.bool b) rfl]
        exact ⟨le_refl _, fun _ => rfl⟩
      | int i =>
        rw [validate_nondict c (PyVal.int i) rfl]
        exact ⟨le_refl _, fun _ => rfl⟩
      | str st =>
        rw [validate_nondict c (PyVal.str st) rfl]
        exact ⟨le_refl _, fun _ => rfl⟩
      | list vs =>
        rw [validate_nondict c (PyVal.list vs) rfl]
        exact ⟨le_refl _, fun _ => rfl⟩
  · have h0 : validate_collection c r = c := by
      simp [validate_collection, hp]
    rw [h0]
    exact ⟨le_refl _, fun _ => rfl⟩

/-- One non-query operation never lowers the rank and never moves off a
terminal status. -/
theorem collOp_step (op : CollOp) (c : CollectionState)
    (hq : op.isQuery = false) :
    STATUS_HIERARCHY c.status ≤ STATUS_HIERARCHY (applyCollOp op c).status ∧
    (TERMINAL_STATUSES c.status = true →
      (applyCollOp op c).status = c.status) := by
  match op with
  | .webhook raw pr pl => exact webhook_step c raw pr pl
  | .validation r => exact validation_step c r
  | .query r => exact absurd hq (by simp [CollOp.isQuery])

/-- The first recorded status of a trace is the starting status. -/
theorem statusTrace_head (c : CollectionState) (ops : List CollOp) :
    (statusTrace c ops).head? = some c.status := by
  cases ops <;> rfl

/-- C2 (amended): under webhook updates and validations (the two paths
that consult the state machine or guard on PENDING) the status history is
non-decreasing in rank and terminal statuses are never left; provider
polls (`query_collection_status`) are excluded, because they overwrite the
status unconditionally — see the counterexample. -/
theorem C2_monotonic_without_query (c : CollectionState)
    (ops : List CollOp) (hq : ∀ op ∈ ops, op.isQuery = false) :
    (statusTrace c ops).Chain'
      (fun a b => claimRank a ≤ claimRank b ∧
        (TERMINAL_STATUSES a = true → b = a)) ∧
    (TERMINAL_STATUSES c.status = true →
      (applyCollOps c ops).status = c.status) := by
  induction ops generalizing c with
  | nil => exact ⟨List.chain'_singleton _, fun _ => rfl⟩
  | cons op rest ih =>
    have hop : op.isQuery = false := hq op (by simp)
    have hrest : ∀ o ∈ rest, o.isQuery = false :=
      fun o ho => hq o (by simp [ho])
    obtain ⟨hle, hterm⟩ := collOp_step op c hop
    obtain ⟨ihchain, ihterm⟩ := ih (applyCollOp op c) hrest
    constructor
    · show (c.status :: statusTrace (applyCollOp op c) rest).Chain' _
      rw [List.chain'_cons']
      refine ⟨?_, ihchain⟩
      intro b hb
      rw [statusTrace_head] at hb
      obtain rfl : b = (applyCollOp op c).status := by
        simpa using hb.symm
      exact ⟨claimRank_eq_hierarchy ▸ hle, hterm⟩
    · intro ht
      show (applyCollOps (applyCollOp op c) rest).status = c.status
      rw [ihterm (by rw [hterm ht]; exact ht), hterm ht]

/-- Concrete collection at SUCCESS used by the C2 counterexample and
witness. -/
def c2Start : CollectionState :=
  { request_ref := "req_1"
    provider_ref := .str "prov_1"
    status := "SUCCESS"
    needs_validation := false
    webhook_payload := Option.none
    txs := ["SUCCESS"] }

/-- A provider poll response reporting `pending`. -/
def c2QueryResponse : PyVal := .dict [("status", .str "pending")]

/-- C2 counterexample: a provider poll (`query_collection_status`) applied
to a SUCCESS collection with a `pending` provider response records
PENDING — the history regresses from rank 4 to rank 2 and a terminal
status is overwritten, because this path never consults
`IdempotentCollectionUpdate`. -/
theorem C2_query_regression_counterexample :
    statusTrace c2Start [CollOp.query c2QueryResponse] =
      ["SUCCESS", "PENDING"] ∧
    ¬ claimRank "SUCCESS" ≤ claimRank "PENDING" ∧
    TERMINAL_STATUSES "SUCCESS" = true ∧
    ("PENDING" : String) ≠ "SUCCESS" := by
  refine ⟨rfl, by decide, rfl, by decide⟩

/-- Witness for the amended C2 at a concrete run. -/
theorem C2_monotonic_without_query_witness :
    (statusTrace c2Start
      [CollOp.webhook "failed" (.str "p2") (.dict []),
       CollOp.validation (.dict [("status", .str "success")])]).Chain'
      (fun a b => claimRank a ≤ claimRank b ∧
        (TERMINAL_STATUSES a = true → b = a)) ∧
    (TERMINAL_STATUSES c2Start.status = true →
      (applyCollOps c2Start
        [CollOp.webhook "failed" (.str "p2") (.dict []),
         CollOp.validation (.dict [("status", .str "success")])]).status =
        c2Start.status) :=
  C2_monotonic_without_query c2Start
    [CollOp.webhook "failed" (.str "p2") (.dict []),
     CollOp.validation (.dict [("status", .str "success")])]
    (by intro op hop; fin_cases hop <;> rfl)

/-- The cascade mapping exactly as claim C4 words it. -/
def claimCascade (s : String) : String :=
  if s = "SUCCESS" then "SUCCESS"
  else if s = "FAILED" then "FAILED"
  else if s = "CANCELLED" then "FAILED"
  else "PENDING"

/-- The code's cascade table (which lists INITIATED → PENDING explicitly)
is the claim's mapping (whose default covers INITIATED). -/
theorem webhookTxStatus_eq_claimCascade : webhookTxStatus = claimCascade := by
  funext s
  unfold webhookTxStatus claimCascade
  split_ifs <;> rfl

/-- C4: after an admitted webhook status update, every transaction that was
PENDING carries the cascade image of the admitted normalized status, and
every transaction that was already SUCCESS or FAILED is unchanged (the
row count is unchanged too). -/
theorem C4_transaction_cascade (c : CollectionState) (raw : String)
    (pr payload : PyVal) (allow_override : Bool)
    (hadm : should_update c.status (webhookNormalize raw) allow_override =
      true) :
    (applyWebhookToCollection c raw pr payload allow_override).txs.length =
      c.txs.length ∧
    ∀ i : Nat,
      (c.txs[i]? = some "PENDING" →
        (applyWebhookToCollection c raw pr payload allow_override).txs[i]? =
          some (claimCascade (webhookNormalize raw))) ∧
      (c.txs[i]? = some "SUCCESS" ∨ c.txs[i]? = some "FAILED" →
        (applyWebhookToCollection c raw pr payload allow_override).txs[i]? =
          c.txs[i]?) := by
  have htxs : (applyWebhookToCollection c raw pr payload allow_override).txs =
      c.txs.map (fun t => if t = "PENDING" then
        webhookTxStatus (webhookNormalize raw) else t) := by
    simp [applyWebhookToCollection, hadm]
  rw [htxs]
  refine ⟨List.length_map _ _, fun i => ⟨fun hp => ?_, fun hsf => ?_⟩⟩
  · rw [List.getElem?_map, hp]
    simp [webhookTxStatus_eq_claimCascade]
  · rw [List.getElem?_map]
    rcases hsf with h | h <;> rw [h] <;> simp

/-- Witness for C4 at a concrete admitted update (an override-admitted
CANCELLED, exercising the CANCELLED → FAILED cascade row). -/
theorem C4_transaction_cascade_witness :
    (applyWebhookToCollection
      { request_ref := "req_2", provider_ref := .none, status := "PENDING",
        needs_validation := false, webhook_payload := Option.none,
        txs := ["PENDING", "SUCCESS"] }
      "cancelled" (.str "p") (.dict []) true).txs.length = 2 ∧
    ∀ i : Nat,
      ((["PENDING", "SUCCESS"] : List String)[i]? = some "PENDING" →
        (applyWebhookToCollection
          { request_ref := "req_2", provider_ref := .none,
            status := "PENDING", needs_validation := false,
            webhook_payload := Option.none,
            txs := ["PENDING", "SUCCESS"] }
          "cancelled" (.str "p") (.dict []) true).txs[i]? =
          some (claimCascade (webhookNormalize "cancelled"))) ∧
      ((["PENDING", "SUCCESS"] : List String)[i]? = some "SUCCESS" ∨
        (["PENDING", "SUCCESS"] : List String)[i]? = some "FAILED" →
        (applyWebhookToCollection
          { request_ref := "req_2", provider_ref := .none,
            status := "PENDING", needs_validation := false,
            webhook_payload := Option.none,
            txs := ["PENDING", "SUCCESS"] }
          "cancelled" (.str "p") (.dict []) true).txs[i]? =
          (["PENDING", "SUCCESS"] : List String)[i]?) :=
  C4_transaction_cascade
    { request_ref := "req_2", provider_ref := .none, status := "PENDING",
      needs_validation := false, webhook_payload := Option.none,
      txs := ["PENDING", "SUCCESS"] }
    "cancelled" (.str "p") (.dict []) true (by decide)

/-! ## `WebhookService.process_event` (webhooks/services.py 313-432) and
the processing lock (webhooks/idempotency.py 75-240) -/

/-- `Collection.objects.get(request_ref=...)` over the embedded table
(`request_ref` is unique). -/
def findCollection (colls : List CollectionState) (ref : String) :
    Option CollectionState :=
  colls.find? (fun c => c.request_ref == ref)

/-- Persist an update of the (unique) row with the given `request_ref`. -/
def updateFirst (colls : List CollectionState) (ref : String)
    (f : CollectionState → CollectionState) : List CollectionState :=
  match colls with
  | [] => []
  | c :: rest =>
    if c.request_ref = ref then f c :: rest
    else c :: updateFirst rest ref f

/-- `CollectionsService.update_collection_from_webhook`
(services.py 327-443) over the embedded table: `new_status.lower()` raises
`AttributeError` on a non-string status, a missing row raises
`CollectionError`, and otherwise the row is rewritten by
`applyWebhookToCollection`.  A non-string `request_ref` matches no row. -/
def update_collection_from_webhook (colls : List CollectionState)
    (request_ref : PyVal) (provider_ref : PyVal) (new_status : PyVal)
    (payload : PyVal) (allow_override : Bool) :
    Except PyErr (List CollectionState) :=
  match new_status with
  | .str s =>
    match request_ref with
    | .str r =>
      match findCollection colls r with
      | some _ => .ok (updateFirst colls r
          (fun c => applyWebhookToCollection c s provider_ref payload
            allow_override))
      | Option.none => .error (.collectionError
          ("Collection not found for request_ref=" ++ r))
    | v => .error (.collectionError
        ("Collection not found for request_ref=" ++ pyStrFn v))
  | _ => .error .attributeError

/-- `ProcessingLock._acquire_db` (idempotency.py 149-155): the fallback
used when no lock backend is configured always succeeds. -/
def acquireFallback : Bool := true

/-- `ProcessingLock.acquire` (idempotency.py 110-120) with the Redis spin
loop abstracted to its outcome: with no Redis client configured the DB
fallback is taken and acquisition succeeds immediately. -/
def ProcessingLock_acquire (redis_configured : Bool)
    (redisOutcome : Bool) : Bool :=
  if redis_configured then redisOutcome else acquireFallback

/-- How the lock step of `process_event` can turn out: the context manager
yields with the lock held; it yields without the lock (`processing_lock`
ignores a false return of `acquire`, services.py 364 with idempotency.py
235-240); or entering it raises, in which case the `except` at
services.py 378-387 re-invokes the update without the lock. -/
inductive LockOutcome : Type where
  | acquired : LockOutcome
  | timedOut : LockOutcome
  | raised : LockOutcome
deriving Repr

/-- The observable outcome of `process_event`: the terminal `WebhookEvent`
status, its `error` field, and the resulting collection table. -/
structure ProcessOutcome where
  eventStatus : String
  eventError : Option String
  collections : List CollectionState
deriving Repr

/-- The `error` text recorded by the `except` arms of `process_event`
(services.py 396-421): `CollectionError` is caught by name, everything
else (including `WebhookError` and `AttributeError`) by the generic arm. -/
def errText : PyErr → String
  | .collectionError msg => "CollectionError: " ++ msg
  | .attributeError => "Unexpected error: AttributeError"
  | .webhookError msg => "Unexpected error: " ++ msg

/-- The lock-and-update step of `process_event` (services.py 361-394): on
a raised lock entry the update runs once in the `except` arm; otherwise it
runs in the `with` body, and if it raises there the same `except` catches
and re-runs it without the lock (the update is pure, so the re-run
repeats the outcome; the `@db_transaction.atomic` rollback means the
failed first run left no change). -/
def dispatchUpdate (lock : LockOutcome) (request_ref : PyVal)
    (provider_ref : PyVal) (status : PyVal) (payload : PyVal)
    (colls : List CollectionState) : ProcessOutcome :=
  let pr := if truthy provider_ref then provider_ref else .str ""
  match lock with
  | .raised =>
    match update_collection_from_webhook colls request_ref pr status payload
        false with
    | .ok colls2 => ⟨"PROCESSED", Option.none, colls2⟩
    | .error e => ⟨"FAILED", some (errText e), colls⟩
  | _ =>
    match update_collection_from_webhook colls request_ref pr status payload
        false with
    | .ok colls2 => ⟨"PROCESSED", Option.none, colls2⟩
    | .error _ =>
      match update_collection_from_webhook colls request_ref pr status
          payload false with
      | .ok colls2 => ⟨"PROCESSED", Option.none, colls2⟩
      | .error e => ⟨"FAILED", some (errText e), colls⟩

/-- `WebhookService.process_event` on a stored payload (services.py
313-421): parse tolerantly, fail the event when no `request_ref` can be
resolved, default an unresolvable status to `"pending"`, then run the
lock-and-update step; any raised error marks the event FAILED with the
arm's message, success marks it PROCESSED. -/
def processEvent (lock : LockOutcome) (provider : String) (payload : PyVal)
    (colls : List CollectionState) : ProcessOutcome :=
  match extract_from_payload payload provider with
  | .error e => ⟨"FAILED", some (errText e), colls⟩
  | .ok ext =>
    if truthy ext.request_ref = false then
      ⟨"FAILED",
       some ("Unexpected error: " ++
         "Could not extract request_ref from webhook payload"),
       colls⟩
    else
      dispatchUpdate lock ext.request_ref ext.provider_ref
        (if truthy ext.status then ext.status else .str "pending")
        payload colls

/-- The lock outcome never changes the result of the lock-and-update
step. -/
theorem dispatchUpdate_lock_irrelevant (l1 l2 : LockOutcome)
    (request_ref provider_ref status payload : PyVal)
    (colls : List CollectionState) :
    dispatchUpdate l1 request_ref provider_ref status payload colls =
      dispatchUpdate l2 request_ref provider_ref status payload colls := by
  unfold dispatchUpdate
  cases l1 <;> cases l2 <;>
    (try rfl) <;>
    (match h : update_collection_from_webhook colls request_ref
        (if truthy provider_ref then provider_ref else .str "") status
        payload false with
     | .ok colls2 => simp [h]
     | .error e => simp [h])

/-- The lock-and-update step always ends PROCESSED or FAILED. -/
theorem dispatchUpdate_status (l : LockOutcome)
    (request_ref provider_ref status payload : PyVal)
    (colls : List CollectionState) :
    (dispatchUpdate l request_ref provider_ref status payload
      colls).eventStatus = "PROCESSED" ∨
    (dispatchUpdate l request_ref provider_ref status payload
      colls).eventStatus = "FAILED" := by
  unfold dispatchUpdate
  cases l <;>
    (match h : update_collection_from_webhook colls request_ref
        (if truthy provider_ref then provider_ref else .str "") status
        payload false with
     | .ok colls2 => simp [h]
     | .error e => simp [h])

/-- C8: failure to acquire the processing lock (timeout or a raised lock
error) never changes what `process_event` does — the update runs with the
same arguments and the delivery reaches the same terminal PROCESSED or
FAILED outcome in every lock scenario — and with no lock backend
configured, `ProcessingLock.acquire` falls back to `_acquire_db` and
succeeds immediately. -/
theorem C8_lock_failure_never_aborts :
    (∀ (l1 l2 : LockOutcome) (provider : String) (payload : PyVal)
      (colls : List CollectionState),
      processEvent l1 provider payload colls =
        processEvent l2 provider payload colls) ∧
    (∀ (l : LockOutcome) (provider : String) (payload : PyVal)
      (colls : List CollectionState),
      (processEvent l provider payload colls).eventStatus = "PROCESSED" ∨
      (processEvent l provider payload colls).eventStatus = "FAILED") ∧
    (∀ redisOutcome : Bool,
      ProcessingLock_acquire false redisOutcome = true) := by
  refine ⟨?_, ?_, fun _ => rfl⟩
  · intro l1 l2 provider payload colls
    unfold processEvent
    match h : extract_from_payload payload provider with
    | .error e => rfl
    | .ok ext =>
      by_cases hrf : truthy ext.request_ref = false
      · simp [hrf]
      · simp only [hrf, if_false]
        exact dispatchUpdate_lock_irrelevant l1 l2 _ _ _ _ _
  · intro l provider payload colls
    unfold processEvent
    match h : extract_from_payload payload provider with
    | .error e => right; rfl
    | .ok ext =>
      by_cases hrf : truthy ext.request_ref = false
      · right; simp [hrf]
      · simp only [hrf, if_false]
        exact dispatchUpdate_status l _ _ _ _ _

/-- C9: when `process_event` cannot resolve a `request_ref` it marks the
event FAILED with a non-empty error and leaves the collection table (and
hence every Transaction) untouched; when a `request_ref` resolves but the
extracted status is falsy, processing continues with the status defaulted
to `"pending"`. -/
theorem C9_process_event_failure_modes :
    (∀ (lock : LockOutcome) (provider : String) (payload : PyVal)
      (colls : List CollectionState) (ext : ExtractedFields),
      extract_from_payload payload provider = .ok ext →
      truthy ext.request_ref = false →
      processEvent lock provider payload colls =
        ⟨"FAILED",
         some ("Unexpected error: " ++
           "Could not extract request_ref from webhook payload"),
         colls⟩ ∧
      ("Unexpected error: " ++
        "Could not extract request_ref from webhook payload") ≠ "") ∧
    (∀ (lock : LockOutcome) (provider : String) (payload : PyVal)
      (colls : List CollectionState) (ext : ExtractedFields),
      extract_from_payload payload provider = .ok ext →
      truthy ext.request_ref = true →
      truthy ext.status = false →
      processEvent lock provider payload colls =
        dispatchUpdate lock ext.request_ref ext.provider_ref (.str "pending")
          payload colls) := by
  constructor
  · intro lock provider payload colls ext hext hrf
    refine ⟨?_, by decide⟩
    unfold processEvent
    rw [hext]
    simp [hrf]
  · intro lock provider payload colls ext hext hrf hst
    unfold processEvent
    rw [hext]
    simp [hrf, hst]

/-- Witness for C9: a PayWithAccount payload with no reference anywhere
fails the event and leaves the table unchanged; a generic payload with a
reference but an explicitly empty status is processed as `"pending"`. -/
theorem C9_process_event_failure_modes_witness :
    (processEvent LockOutcome.acquired "paywithaccount"
        (.dict [("status", .str "success")]) [c2Start] =
      ⟨"FAILED",
       some ("Unexpected error: " ++
         "Could not extract request_ref from webhook payload"),
       [c2Start]⟩ ∧
      ("Unexpected error: " ++
        "Could not extract request_ref from webhook payload") ≠ "") ∧
    processEvent LockOutcome.acquired "generic"
        (.dict [("id", .str "r1"), ("status", .str "")]) [] =
      dispatchUpdate LockOutcome.acquired (.str "r1") PyVal.none
        (.str "pending") (.dict [("id", .str "r1"), ("status", .str "")])
        [] :=
  ⟨C9_process_event_failure_modes.1 LockOutcome.acquired "paywithaccount"
      (.dict [("status", .str "success")]) [c2Start]
      ⟨.none, .none, .str "success"⟩ rfl rfl,
   C9_process_event_failure_modes.2 LockOutcome.acquired "generic"
      (.dict [("id", .str "r1"), ("status", .str "")]) []
      ⟨.str "r1", .none, .str ""⟩ rfl rfl rfl⟩

/-- C10: when the state machine rejects a webhook transition, the
collection row is still saved — `provider_ref` is overwritten whenever the
extracted value is truthy, the first webhook payload is stored under
`metadata["webhook_payload"]` — while the status and every transaction row
are unchanged; and `process_event` still ends PROCESSED with exactly that
saved table (rejection is not an error). -/
theorem C10_rejected_update_frame :
    (∀ (c : CollectionState) (raw : String) (pr payload : PyVal),
      should_update c.status (webhookNormalize raw) false = false →
      (applyWebhookToCollection c raw pr payload false).status = c.status ∧
      (applyWebhookToCollection c raw pr payload false).txs = c.txs ∧
      (applyWebhookToCollection c raw pr payload false).provider_ref =
        (if truthy pr = true then pr else c.provider_ref) ∧
      (applyWebhookToCollection c raw pr payload false).webhook_payload =
        some (c.webhook_payload.getD payload)) ∧
    (∀ (lock : LockOutcome) (provider : String) (payload : PyVal)
      (colls : List CollectionState) (ext : ExtractedFields) (r st : String)
      (c : CollectionState),
      extract_from_payload payload provider = .ok ext →
      ext.request_ref = .str r →
      truthy ext.request_ref = true →
      ext.status = .str st →
      truthy ext.status = true →
      findCollection colls r = some c →
      processEvent lock provider payload colls =
        ⟨"PROCESSED", Option.none,
         updateFirst colls r (fun c0 => applyWebhookToCollection c0 st
           (if truthy ext.provider_ref then ext.provider_ref else .str "")
           payload false)⟩) := by
  constructor
  · intro c raw pr payload hrej
    refine ⟨?_, ?_, ?_, ?_⟩
    · simp [applyWebhookToCollection, hrej]
    · simp [applyWebhookToCollection, hrej]
    · simp [applyWebhookToCollection]
    · match h : c.webhook_payload with
      | Option.none => simp [applyWebhookToCollection, h]
      | some p => simp [applyWebhookToCollection, h]
  · intro lock provider payload colls ext r st c hext hrf htrf hst htst hfind
    unfold processEvent
    rw [hext]
    simp only [htrf, Bool.true_eq_false, if_false]
    have hupd : update_collection_from_webhook colls ext.request_ref
        (if truthy ext.provider_ref then ext.provider_ref else .str "")
        (if truthy ext.status then ext.status else .str "pending")
        payload false =
        .ok (updateFirst colls r (fun c0 => applyWebhookToCollection c0 st
          (if truthy ext.provider_ref then ext.provider_ref else .str "")
          payload false)) := by
      rw [htst, if_pos rfl, hst, hrf]
      simp [update_collection_from_webhook, hfind]
    unfold dispatchUpdate
    cases lock <;> simp only [hupd]

/-- A SUCCESS collection for the C10 witness. -/
def c10Coll : CollectionState :=
  { request_ref := "req_9"
    provider_ref := .none
    status := "SUCCESS"
    needs_validation := false
    webhook_payload := Option.none
    txs := ["SUCCESS"] }

/-- A late `pending` webhook for the C10 witness (the state machine
rejects INITIATED after SUCCESS). -/
def c10Payload : PyVal :=
  .dict [("request_ref", .str "req_9"), ("transaction_ref", .str "prov_9"),
    ("status", .str "pending")]

/-- Witness for C10 at a concrete rejected transition. -/
theorem C10_rejected_update_frame_witness :
    ((applyWebhookToCollection c10Coll "pending" (.str "prov_9") c10Payload
        false).status = c10Coll.status ∧
      (applyWebhookToCollection c10Coll "pending" (.str "prov_9") c10Payload
        false).txs = c10Coll.txs ∧
      (applyWebhookToCollection c10Coll "pending" (.str "prov_9") c10Payload
        false).provider_ref =
        (if truthy (.str "prov_9") = true then .str "prov_9"
          else c10Coll.provider_ref) ∧
      (applyWebhookToCollection c10Coll "pending" (.str "prov_9") c10Payload
        false).webhook_payload =
        some (c10Coll.webhook_payload.getD c10Payload)) ∧
    processEvent LockOutcome.timedOut "paywithaccount" c10Payload [c10Coll] =
      ⟨"PROCESSED", Option.none,
       updateFirst [c10Coll] "req_9" (fun c0 =>
         applyWebhookToCollection c0 "pending"
           (if truthy (.str "prov_9") then .str "prov_9" else .str "")
           c10Payload false)⟩ :=
  ⟨C10_rejected_update_frame.1 c10Coll "pending" (.str "prov_9") c10Payload
      (by decide),
   C10_rejected_update_frame.2 LockOutcome.timedOut "paywithaccount"
      c10Payload [c10Coll] ⟨.str "req_9", .str "prov_9", .str "pending"⟩
      "req_9" "pending" c10Coll rfl rfl rfl rfl rfl rfl⟩

/-! ## Webhook ingestion entry points (webhooks/services.py 164-311) over
a durable `WebhookEvent` store -/

/-- A stored `WebhookEvent` row (webhooks/models.py): `id` is its insert
position, `event_id` is nullable and unique when present. -/
structure WebhookEvent where
  id : Nat
  provider : String
  event_id : Option String
  request_ref : PyVal
  payload : PyVal
  status : String
  error : Option String
deriving Repr

/-- The persistent store: the `WebhookEvent` table and the `Collection`
table (with their transactions). -/
structure Store where
  events : List WebhookEvent
  colls : List CollectionState
deriving Repr

/-- The rows carrying a given `event_id`. -/
def countEventsWithId (st : Store) (e : String) : Nat :=
  (st.events.filter (fun ev => ev.event_id == some e)).length

/-- Insert a RECEIVED row and process it inline (Celery absent —
services.py 256-266 falls back to `self.process_event`), writing the
terminal status back to the row and the updated collections back to the
table; the in-memory object returned to the caller still reads RECEIVED,
as in the source. -/
def doInsertProcess (st : Store) (provider : String) (payload : PyVal)
    (request_ref : PyVal) (event_id : Option String) :
    Store × WebhookEvent :=
  let ev : WebhookEvent :=
    ⟨st.events.length, provider, event_id, request_ref, payload,
     "RECEIVED", Option.none⟩
  let out := processEvent LockOutcome.acquired provider payload st.colls
  let evP : WebhookEvent :=
    { ev with status := out.eventStatus, error := out.eventError }
  (⟨(st.events ++ [ev]).set st.events.length evP, out.collections⟩, ev)

/-- The insert step of `receive_event` (services.py 227-252): a uniqueness
violation on `event_id` (the insert lost the race) is caught, and the
winner's row is fetched and returned with no processing dispatched. -/
def insertOrFetch (st : Store) (provider : String) (payload : PyVal)
    (request_ref : PyVal) (event_id : Option String) :
    Store × WebhookEvent :=
  match event_id with
  | some e =>
    match st.events.find? (fun ev => ev.event_id == some e) with
    | some winner => (st, winner)
    | Option.none => doInsertProcess st provider payload request_ref (some e)
  | Option.none => doInsertProcess st provider payload request_ref Option.none

/-- `WebhookService.receive_event` (services.py 164-268) with no signature
secret configured and no out-of-band identifiers, extracting `request_ref`
and `event_id` from the payload.  `dupCheckMisses` models the concurrent
interleaving in which the pre-insert duplicate check ran before a racing
identical delivery committed: the check is skipped and the insert is left
to hit the uniqueness constraint. -/
def receive_event (st : Store) (provider : String) (payload : PyVal)
    (dupCheckMisses : Bool) : Except PyErr (Store × WebhookEvent) := do
  let ext ← extract_from_payload payload provider
  let event_id ← extract_event_id payload
  let request_ref :=
    if truthy ext.request_ref then ext.request_ref else PyVal.none
  match event_id with
  | some e =>
    if dupCheckMisses = false then
      match st.events.find? (fun ev => ev.event_id == some e) with
      | some existing => return (st, existing)
      | Option.none =>
        return insertOrFetch st provider payload request_ref (some e)
    else
      return insertOrFetch st provider payload request_ref (some e)
  | Option.none =>
    return insertOrFetch st provider payload request_ref Option.none

/-- `WebhookService.receive_paywithaccount_event` (services.py 270-311):
extracts a best-effort `request_ref`, stores the row with **no**
`event_id` and **no** duplicate check, and processes inline (exceptions
from processing are swallowed). -/
def receive_paywithaccount_event (st : Store) (payload : PyVal) :
    Except PyErr (Store × WebhookEvent) := do
  let ext ← _extract_paywithaccount payload
  let ev : WebhookEvent :=
    ⟨st.events.length, "paywithaccount", Option.none, ext.request_ref,
     payload, "RECEIVED", Option.none⟩
  let out := processEvent LockOutcome.acquired "paywithaccount" payload
    st.colls
  let evP : WebhookEvent :=
    { ev with status := out.eventStatus, error := out.eventError }
  return (⟨(st.events ++ [ev]).set st.events.length evP, out.collections⟩,
    ev)

/-- `bind` on a raised `Except` short-circuits. -/
theorem except_bind_err {α β : Type} (e : PyErr)
    (f : α → Except PyErr β) :
    ((Except.error e : Except PyErr α) >>= f) = .error e := rfl

/-- Setting the freshly appended element rewrites just that element. -/
theorem set_append_length {α : Type} (l : List α) (a b : α) :
    (l ++ [a]).set l.length b = l ++ [b] := by
  induction l with
  | nil => rfl
  | cons x xs ih => simp [List.set, ih]

/-- C3 (amended): through `receive_event`, a payload carrying a fresh
event id `E` leaves, after a first receipt, exactly one `WebhookEvent` row
with `event_id = E`, and the collection table is the result of processing
the payload once; a second receipt — whether its pre-insert duplicate
check sees the first row (`race = false`) or misses it and the insert
loses the uniqueness race (`race = true`) — returns that same row's store
unchanged, with the returned row carrying `E`.  (The claim fails for the
other ingestion entry point, `receive_paywithaccount_event`, which stores
no `event_id` and never deduplicates — see the counterexample.) -/
theorem C3_receive_event_dedup (st : Store) (provider : String)
    (payload : PyVal) (e : String) (race : Bool) (st1 : Store)
    (ev1 : WebhookEvent)
    (he : extract_event_id payload = .ok (some e))
    (hfresh : st.events.find? (fun ev => ev.event_id == some e) =
      Option.none)
    (h1 : receive_event st provider payload false = .ok (st1, ev1)) :
    countEventsWithId st1 e = 1 ∧
    st1.colls = (processEvent LockOutcome.acquired provider payload
      st.colls).collections ∧
    ∃ ev2, receive_event st1 provider payload race = .ok (st1, ev2) ∧
      ev2.event_id = some e := by
  match hext : extract_from_payload payload provider with
  | .error er =>
    rw [receive_event, hext, except_bind_err] at h1
    exact absurd h1 (by simp)
  | .ok ext =>
    rw [receive_event, hext, except_bind_ok, he, except_bind_ok] at h1
    simp only [Bool.false_eq_true, if_false, hfresh] at h1
    rw [insertOrFetch, hfresh] at h1
    set rr := if truthy ext.request_ref then ext.request_ref else PyVal.none
      with hrr
    set out := processEvent LockOutcome.acquired provider payload st.colls
      with hout
    set ev0 : WebhookEvent :=
      ⟨st.events.length, provider, some e, rr, payload, "RECEIVED",
       Option.none⟩ with hev0
    set evP : WebhookEvent :=
      { ev0 with status := out.eventStatus, error := out.eventError }
      with hevP
    have h1' : (⟨(st.events ++ [ev0]).set st.events.length evP,
        out.collections⟩, ev0) = (st1, ev1) := by
      have := h1
      rw [doInsertProcess] at this
      simpa [except_pure_eq] using this
    obtain ⟨hst1, _⟩ := Prod.mk.injEq .. ▸ h1'
    have hevents : st1.events = st.events ++ [evP] := by
      rw [← hst1]
      simp [set_append_length]
    have hcolls : st1.colls = out.collections := by rw [← hst1]
    have hnomatch : ∀ ev ∈ st.events, ¬(ev.event_id == some e) = true :=
      List.find?_eq_none.mp hfresh
    have hcount : countEventsWithId st1 e = 1 := by
      rw [countEventsWithId, hevents, List.filter_append,
        List.filter_eq_nil_iff.mpr hnomatch]
      simp [hevP, hev0]
    have hfind1 : st1.events.find? (fun ev => ev.event_id == some e) =
        some evP := by
      rw [hevents, List.find?_append, hfresh]
      simp [hevP, hev0]
    refine ⟨hcount, hcolls, evP, ?_, by rw [hevP]⟩
    rw [receive_event, hext, except_bind_ok, he, except_bind_ok]
    cases race with
    | false => simp [hfind1, except_pure_eq]
    | true => simp [insertOrFetch, hfind1, except_pure_eq]

/-- A webhook payload carrying event id `evt_1` for the C3 run. -/
def c3Payload : PyVal :=
  .dict [("event_id", .str "evt_1"), ("request_ref", .str "r1"),
    ("status", .str "success")]

/-- The collection `r1` the C3 payload reconciles against. -/
def c3Coll : CollectionState :=
  { request_ref := "r1"
    provider_ref := .none
    status := "INITIATED"
    needs_validation := false
    webhook_payload := Option.none
    txs := ["PENDING"] }

/-- The initial store of the C3 run: no events, one INITIATED
collection. -/
def c3Store0 : Store := ⟨[], [c3Coll]⟩

/-- The store after the first `receive_event` receipt of the C3
payload. -/
def c3St1 : Store :=
  match receive_event c3Store0 "paywithaccount" c3Payload false with
  | .ok (s, _) => s
  | .error _ => c3Store0

/-- The row returned by the first `receive_event` receipt. -/
def c3Ev1 : WebhookEvent :=
  match receive_event c3Store0 "paywithaccount" c3Payload false with
  | .ok (_, ev) => ev
  | .error _ => ⟨0, "", Option.none, .none, .none, "", Option.none⟩

/-- Witness for the amended C3 at a concrete double delivery (the second
receipt taking the uniqueness-race branch). -/
theorem C3_receive_event_dedup_witness :
    countEventsWithId c3St1 "evt_1" = 1 ∧
    c3St1.colls = (processEvent LockOutcome.acquired "paywithaccount"
      c3Payload c3Store0.colls).collections ∧
    ∃ ev2, receive_event c3St1 "paywithaccount" c3Payload true =
      .ok (c3St1, ev2) ∧ ev2.event_id = some "evt_1" :=
  C3_receive_event_dedup c3Store0 "paywithaccount" c3Payload "evt_1" true
    c3St1 c3Ev1 rfl rfl rfl

/-- The store after delivering the C3 payload twice through
`receive_paywithaccount_event`. -/
def c3PwaTwice : Store :=
  match receive_paywithaccount_event c3Store0 c3Payload with
  | .ok (st1, _) =>
    match receive_paywithaccount_event st1 c3Payload with
    | .ok (st2, _) => st2
    | .error _ => st1
  | .error _ => c3Store0

/-- C3 counterexample: the ingestion entry point
`receive_paywithaccount_event` stores rows with no `event_id` and never
deduplicates, so delivering the same payload (event id `evt_1`) twice
leaves two rows and none carrying `evt_1` — not exactly one row with
`event_id = "evt_1"` as the claim states for the webhook ingestion entry
points. -/
theorem C3_pwa_no_dedup_counterexample :
    extract_event_id c3Payload = .ok (some "evt_1") ∧
    c3PwaTwice.events.length = 2 ∧
    countEventsWithId c3PwaTwice "evt_1" = 0 ∧
    ¬ countEventsWithId c3PwaTwice "evt_1" = 1 := by
  refine ⟨rfl, rfl, rfl, ?_⟩
  intro h
  rw [show countEventsWithId c3PwaTwice "evt_1" = 0 from rfl] at h
  exact absurd h (by decide)
